import Mathlib

/-
Verification of the Kling_Ai repository against its specification.

The development shallowly embeds the payment-notification verifier and
balance ledger (src/kling_bot.py `on_yoomoney_notification`,
src/webhook_handler.py `yoomoney_webhook`, src/payments.py
`increment_user_balance`), the generation poll loop
(src/kling_bot.py `kling_generate_video` and `_poll_and_send`), and the
per-user session flow (src/kling_bot.py image handlers).

External collaborators are parameters of the embedding: the SHA-1 digest
from Python's hashlib is an abstract function `hashFn : String → String`
(the code only compares its hex output), Python's Unicode digit tables
behind `str.isdigit` and `int` are a `PyDigits` record, wall-clock
timestamps are a `now : String` argument, and the SQLite table keyed by
`user_id` is a function `Nat → Option BalanceRow`.
-/

namespace KlingAi

/-- Embedding of Python `str.lower` (per-character lowering; all strings
compared by the code are ASCII hex digests or flag words). -/
def pyLower (s : String) : String := String.mk (s.data.map Char.toLower)

/-- Embedding of Python `sep.join(xs)`. -/
def pyJoin (sep : String) : List String → String
  | [] => ""
  | [x] => x
  | x :: y :: xs => x ++ sep ++ pyJoin sep (y :: xs)

/-- Embedding of Python `a or b` for strings (empty string is falsy). -/
def pyOrStr (a b : String) : String := if a = "" then b else a

/-- Embedding of Python `opt or b` where `opt` is `dict.get(k)` (either
`None` or a possibly empty string; both falsy cases fall through to `b`). -/
def orNonEmpty (a : Option String) (b : String) : String :=
  match a with
  | none => b
  | some s => if s = "" then b else s

/-- A parsed, key-normalized notification: the `params` /
`normalized_params` dictionary of both handlers. -/
abbrev Params := String → Option String

/-- Embedding of `params.get(k, "")`. -/
def getp (p : Params) (k : String) : String := (p k).getD ""

/-- The fixed field order of the signature base string
(`ordered_keys` in kling_bot.py:483-492 and webhook_handler.py:75-84). -/
def ordered_keys : List String :=
  ["notification_type", "operation_id", "amount", "currency", "datetime",
   "sender", "codepro", "label"]

/-- `secret = YOOMONEY_SECRET or params.get("secret", "")`
(kling_bot.py:493, webhook_handler.py:85). -/
def notifSecret (cfgSecret : String) (p : Params) : String :=
  pyOrStr cfgSecret (getp p "secret")

/-- `sign_string = "&".join([params.get(k, "") for k in ordered_keys] + [secret])`
(kling_bot.py:494, webhook_handler.py:86). -/
def sign_string (cfgSecret : String) (p : Params) : String :=
  pyJoin "&" (ordered_keys.map (fun k => getp p k) ++ [notifSecret cfgSecret p])

/-- `received_hash = params.get("sha1_hash") or params.get("md5") or
params.get("notification_secret") or ""` (kling_bot.py:497, webhook_handler.py:89). -/
def received_hash (p : Params) : String :=
  orNonEmpty (p "sha1_hash")
    (orNonEmpty (p "md5") (orNonEmpty (p "notification_secret") ""))

/-- `is_valid` of the chat-message handler (kling_bot.py:502):
`received_hash.lower() == sha1_hex.lower() and
params.get("codepro", "false").lower() == "false"`.
`hashFn` stands for `hashlib.sha1(·.encode()).hexdigest()`. -/
def is_valid_bot (hashFn : String → String) (cfgSecret : String) (p : Params) : Bool :=
  (pyLower (received_hash p) == pyLower (hashFn (sign_string cfgSecret p))) &&
  (pyLower ((p "codepro").getD "false") == "false")

/-- `is_valid` of the webhook handler (webhook_handler.py:93-97): the chat
variant plus `normalized_params.get("currency") == "643"`. -/
def is_valid_webhook (hashFn : String → String) (cfgSecret : String) (p : Params) : Bool :=
  (pyLower (received_hash p) == pyLower (hashFn (sign_string cfgSecret p))) &&
  (pyLower ((p "codepro").getD "false") == "false") &&
  (p "currency" == some "643")

/-- One row of the `payments` table (payments.py:15-23). -/
structure BalanceRow where
  paid_generations : Int
  last_payment_at : Option String
  username : Option String
  total_spent_cents : Int
  created_at : String
  updated_at : String
deriving DecidableEq

/-- The `payments` table keyed by `user_id`. -/
abbrev LedgerState := Nat → Option BalanceRow

/-- Point update of the table at one `user_id`. -/
def setRow (st : LedgerState) (uid : Nat) (r : BalanceRow) : LedgerState :=
  fun u => if u = uid then some r else st u

/-- `get_user_balance` (payments.py:43-47): `paid_generations` of the row,
or 0 when no row exists. -/
def get_user_balance (st : LedgerState) (uid : Nat) : Int :=
  match st uid with
  | some r => r.paid_generations
  | none => 0

/-- `increment_user_balance` (payments.py:66-87).  Returns the new balance
and the updated table.  `now` is `datetime.utcnow().isoformat()`; the
`updated_at` refresh on the UPDATE branch embeds the
`trg_payments_updated_at` trigger (payments.py:32-40); on the INSERT branch
`updated_at`/`created_at` take their `datetime('now')` column defaults. -/
def increment_user_balance (st : LedgerState) (uid : Nat) (delta : Int)
    (username : Option String) (now : String) : Int × LedgerState :=
  if delta = 0 then (get_user_balance st uid, st)
  else
    match st uid with
    | some row =>
        let newVal := max 0 (row.paid_generations + delta)
        (newVal, setRow st uid
          { paid_generations := newVal
            last_payment_at := if delta > 0 then some now else row.last_payment_at
            username := match username with
              | some u => some u
              | none => row.username
            total_spent_cents := row.total_spent_cents
            created_at := row.created_at
            updated_at := now })
    | none =>
        let newVal := max 0 (0 + delta)
        (newVal, setRow st uid
          { paid_generations := newVal
            last_payment_at := if delta > 0 then some now else none
            username := username
            total_spent_cents := 0
            created_at := now
            updated_at := now })

/-- Python's Unicode character-digit tables, an external collaborator of
the embedding (like the SHA-1 function): `isdig c` is Python
`ch.isdigit()`, which is true for every Unicode decimal digit (category
Nd, e.g. the Arabic-Indic digits) and for Numeric_Type=Digit characters
such as superscripts; `decVal c` is the decimal value `int` assigns to
the character, or `none` when `int` rejects it — `int` accepts exactly
the Unicode decimal digits, so e.g. a superscript satisfies `isdigit`
yet makes `int` raise `ValueError`. -/
structure PyDigits where
  isdig : Char → Bool
  decVal : Char → Option Nat

/-- Python `str.isdigit` on the character list of a label: non-empty and
all digit characters. -/
def pyIsDigit (U : PyDigits) (l : List Char) : Bool := !l.isEmpty && l.all U.isdig

/-- Python `int(...)` on a label fragment: `none` is the `ValueError`
raised on the empty string or on any character that is not a Unicode
decimal digit; otherwise the base-10 positional value of the digits. -/
def pyInt (U : PyDigits) (l : List Char) : Option Nat :=
  if l.isEmpty then none
  else l.foldl (fun acc c =>
    match acc, U.decVal c with
    | some n, some v => some (10 * n + v)
    | _, _ => none) (some 0)

/-- The ASCII rows of Python's digit tables: the characters '0'-'9' with
their usual values (a sub-table of the real one, agreeing with Python on
every character it classifies as a digit). -/
def asciiDigits : PyDigits where
  isdig := Char.isDigit
  decVal := fun c => if c.isDigit then some (c.toNat - 48) else none

/-- Result of the user-id extraction: a resolved id, an unresolved user
(Python `user_id_from_label is None`), or a `ValueError` escaping the
extraction code. -/
inductive ExtractResult where
  | resolved (uid : Nat)
  | unresolved
  | valueError
deriving DecidableEq

/-- The user-id extraction of the chat handler (kling_bot.py:511-526):
the whole label as digits; else a `user_id:<digits>` form (the label
starts with `user_id:`, so Python `label.split(":", 1)[1]` is
`label[8:]`); else the digit characters stripped from the label, where
only this third stage wraps `int` in try/except ValueError
(kling_bot.py:523-526) and falls back to the unresolved case; a
`ValueError` in the first two stages escapes to the handler's outer
`except` (kling_bot.py:541). -/
def extract_user_id (U : PyDigits) (label : List Char) : ExtractResult :=
  if pyIsDigit U label then
    match pyInt U label with
    | some n => ExtractResult.resolved n
    | none => ExtractResult.valueError
  else if "user_id:".data.isPrefixOf label && pyIsDigit U (label.drop 8) then
    match pyInt U (label.drop 8) with
    | some n => ExtractResult.resolved n
    | none => ExtractResult.valueError
  else if !(label.filter U.isdig).isEmpty then
    match pyInt U (label.filter U.isdig) with
    | some n => ExtractResult.resolved n
    | none => ExtractResult.unresolved
  else ExtractResult.unresolved

/-- The user-id extraction of the webhook handler
(webhook_handler.py:102-112): the same three stages, but the third stage
has no try/except, so a `ValueError` there escapes too. -/
def extract_user_id_webhook (U : PyDigits) (label : List Char) : ExtractResult :=
  if pyIsDigit U label then
    match pyInt U label with
    | some n => ExtractResult.resolved n
    | none => ExtractResult.valueError
  else if "user_id:".data.isPrefixOf label && pyIsDigit U (label.drop 8) then
    match pyInt U (label.drop 8) with
    | some n => ExtractResult.resolved n
    | none => ExtractResult.valueError
  else if !(label.filter U.isdig).isEmpty then
    match pyInt U (label.filter U.isdig) with
    | some n => ExtractResult.resolved n
    | none => ExtractResult.valueError
  else ExtractResult.unresolved

/-- Terminal outcome of one notification handler run; `handlerError` is
a `ValueError` escaping the extraction, caught by the chat handler's
outer `except` (kling_bot.py:541-546) and surfaced as an HTTP error by
the webhook — in either case without touching the ledger. -/
inductive NotifOutcome where
  | invalid
  | unresolvedUser
  | handlerError
  | credited (uid : Nat) (newBalance : Int)
deriving DecidableEq

/-- The ledger-relevant tail of `on_yoomoney_notification`
(kling_bot.py:482-540), starting from the normalized `params` dictionary:
validate the signature, resolve the user from `label`, and on success
credit one generation; every failure path leaves the table untouched. -/
def on_yoomoney_notification (U : PyDigits) (hashFn : String → String)
    (cfgSecret now : String) (p : Params) (st : LedgerState) :
    LedgerState × NotifOutcome :=
  if is_valid_bot hashFn cfgSecret p then
    match extract_user_id U (getp p "label").data with
    | ExtractResult.resolved uid =>
        let r := increment_user_balance st uid 1 none now
        (r.2, NotifOutcome.credited uid r.1)
    | ExtractResult.unresolved => (st, NotifOutcome.unresolvedUser)
    | ExtractResult.valueError => (st, NotifOutcome.handlerError)
  else (st, NotifOutcome.invalid)

/-- The ledger-relevant tail of `yoomoney_webhook`
(webhook_handler.py:74-127): as the chat handler but with the stricter
`is_valid`, the uncaught third-stage `ValueError`, and HTTP-error
outcomes on failure. -/
def yoomoney_webhook (U : PyDigits) (hashFn : String → String)
    (cfgSecret now : String) (p : Params) (st : LedgerState) :
    LedgerState × NotifOutcome :=
  if is_valid_webhook hashFn cfgSecret p then
    match extract_user_id_webhook U (getp p "label").data with
    | ExtractResult.resolved uid =>
        let r := increment_user_balance st uid 1 none now
        (r.2, NotifOutcome.credited uid r.1)
    | ExtractResult.unresolved => (st, NotifOutcome.unresolvedUser)
    | ExtractResult.valueError => (st, NotifOutcome.handlerError)
  else (st, NotifOutcome.invalid)

/-- Result of one status request inside `kling_generate_video`
(`task_status` field, kling_bot.py:182-187). -/
inductive PollStatus where
  | processing
  | succeed (url : String)
  | failed (reason : String)
deriving DecidableEq

/-- Terminal outcome of `kling_generate_video`: returned URL, the
`RuntimeError` on a failed task, or the `TimeoutError` raised past the
20-minute deadline (kling_bot.py:174-187). -/
inductive KlingOutcome where
  | succeeded (url : String)
  | generationFailed (reason : String)
  | timedOut
deriving DecidableEq

/-- Inner-poll interval backoff (kling_bot.py:193-194):
`if poll_interval < 15: poll_interval = min(poll_interval + 3, 15)`. -/
def updateInterval (i : Nat) : Nat := if i < 15 then min (i + 3) 15 else i

/-- The polling loop of `kling_generate_video` (kling_bot.py:169-195).
`poll` maps the elapsed seconds of a status request to its task status,
`elapsed` is `time.time() - start_time`, and a deterministic fuel bounds
the unrolling; `none` means the fuel ran out before a terminal state. -/
def kling_poll_loop (poll : Nat → PollStatus) : Nat → Nat → Nat → Option KlingOutcome
  | 0, _, _ => none
  | fuel + 1, elapsed, interval =>
    if 1200 < elapsed then some KlingOutcome.timedOut
    else
      match poll elapsed with
      | PollStatus.succeed url => some (KlingOutcome.succeeded url)
      | PollStatus.failed r => some (KlingOutcome.generationFailed r)
      | PollStatus.processing =>
          kling_poll_loop poll fuel (elapsed + interval) (updateInterval interval)

/-- `kling_generate_video` after task creation: the poll loop started at
elapsed time 0 with `poll_interval = 5` (kling_bot.py:170-171). -/
def kling_generate_video (poll : Nat → PollStatus) (fuel : Nat) : Option KlingOutcome :=
  kling_poll_loop poll fuel 0 5

/-- Result of one `_poll_and_send` attempt, i.e. one full run of
`kling_generate_video` in the executor (kling_bot.py:374-385): a video
URL, the propagated `TimeoutError`, or any other exception (logged and
retried). -/
inductive AttemptResult where
  | success (url : String)
  | timeoutErr
  | transientErr (msg : String)
deriving DecidableEq

/-- Observable events of one `_poll_and_send` run: sleeps, "still
waiting" notifications tagged with the delay just slept, the final video
message, and the final timeout message (kling_bot.py:366-421). -/
inductive OutEvent where
  | sleep (d : Nat)
  | notify (tier : Nat)
  | sendVideo (url : String)
  | timeoutMsg
deriving DecidableEq

/-- Outer-loop delay update (kling_bot.py:396):
`next_delay = min(next_delay + 30 if next_delay < 60 else min(next_delay + 15, 90), 90)`. -/
def updateDelay (d : Nat) : Nat :=
  min (if d < 60 then d + 30 else min (d + 15) 90) 90

/-- The `_poll_and_send` loop (kling_bot.py:366-421) as an event trace:
sleep `next_delay`, run one attempt; on success send the video and stop,
on the inner timeout emit the timeout message and stop, otherwise notify
the user, stop with the timeout message once `notify_count` reaches 20,
and else loop with the increased delay. -/
def poll_and_send (attempt : Nat → AttemptResult) :
    Nat → Nat → Nat → Nat → List OutEvent
  | 0, _, _, _ => []
  | fuel + 1, i, notifyCount, nextDelay =>
    OutEvent.sleep nextDelay ::
    match attempt i with
    | AttemptResult.success url => [OutEvent.sendVideo url]
    | AttemptResult.timeoutErr => [OutEvent.timeoutMsg]
    | AttemptResult.transientErr _ =>
        OutEvent.notify nextDelay ::
        (if 20 ≤ notifyCount + 1 then [OutEvent.timeoutMsg]
         else poll_and_send attempt fuel (i + 1) (notifyCount + 1) (updateDelay nextDelay))

/-- The delay tiers at which "still waiting" notifications were emitted,
in order. -/
def notifyTiers : List OutEvent → List Nat
  | [] => []
  | OutEvent.notify t :: es => t :: notifyTiers es
  | _ :: es => notifyTiers es

/-- The in-memory `Session` dataclass (kling_bot.py:49-53). -/
structure Session where
  start_b64 : Option String
  end_b64 : Option String
  workdir : Option String
deriving DecidableEq

/-- `Session()`: all fields default to `None`. -/
def emptySession : Session := ⟨none, none, none⟩

/-- Inbound events that touch a user's session entry: `/start`
(kling_bot.py:200-210), `/cancel` (213-217), the "Создать видео" button
(306-310), a non-image message falling through `on_image`'s content check
(324-326), an image message (data and the fresh working directory it may
allocate), and the exception branch of `on_image` (433-436). -/
inductive BotEvent where
  | cmdStart
  | cmdCancel
  | flowStartText
  | nonImageMsg
  | imageMsg (data : String) (dir : String)
  | imageIntakeError
deriving DecidableEq

/-- The successive values of the user's session entry during `on_image`
(kling_bot.py:313-431): ensure a workdir, then either store the first
image, or store the second image and — after launching the background
poll — replace the session by a fresh one (line 427). -/
def on_image_states (s : Session) (data dir : String) : List Session :=
  let s1 := if s.workdir.isNone then { s with workdir := some dir } else s
  if s1.start_b64.isNone then [{ s1 with start_b64 := some data }]
  else [{ s1 with end_b64 := some data }, emptySession]

/-- Successive session values produced by one inbound event. -/
def step_states (s : Session) : BotEvent → List Session
  | BotEvent.cmdStart => [emptySession]
  | BotEvent.cmdCancel => [emptySession]
  | BotEvent.flowStartText => [emptySession]
  | BotEvent.nonImageMsg => [s]
  | BotEvent.imageMsg data dir => on_image_states s data dir
  | BotEvent.imageIntakeError => [emptySession]

/-- All session values ever held while processing a list of events,
starting from `s` (each event continues from the last value of the
previous one). -/
def run_states (s : Session) : List BotEvent → List Session
  | [] => []
  | e :: evs => step_states s e ++ run_states ((step_states s e).getLastD s) evs

/-- The session invariant of the spec: a second image is only present
when a first image is. -/
def ImageInv (s : Session) : Prop := s.end_b64.isSome → s.start_b64.isSome

instance (s : Session) : Decidable (ImageInv s) := by
  unfold ImageInv
  infer_instance

/-- Number of positions at which two character lists differ (length
mismatch counts the overhang). -/
def diffCount : List Char → List Char → Nat
  | [], [] => 0
  | [], b => b.length
  | a, [] => a.length
  | a :: as, b :: bs => (if a = b then 0 else 1) + diffCount as bs

/-- The sample digest from the repository's own test notification
(kling_bot.py:232). -/
def sha1Sample : String := "46898d2aaddb327c902e958ea3bb71822183923a"

/-- The sample digest with its final character changed from a lowercase
to an uppercase letter. -/
def sha1SampleUp : String := "46898d2aaddb327c902e958ea3bb71822183923A"

/-- C9: calling increment with delta = 0 performs no storage write at all:
the table — hence every field of the user's balance record — is unchanged,
and the call returns the current balance (0 if no record exists). -/
theorem increment_zero_delta_is_pure (st : LedgerState) (uid : Nat)
    (username : Option String) (now : String) :
    increment_user_balance st uid 0 username now = (get_user_balance st uid, st) := by
  simp [increment_user_balance]

/-- C3: on a nonnegative current balance b (the ledger invariant),
increment stores and returns max(0, b + delta) for every delta, so the
stored balance is never negative. -/
theorem increment_clamps_at_zero (st : LedgerState) (uid : Nat) (delta : Int)
    (username : Option String) (now : String)
    (h : 0 ≤ get_user_balance st uid) :
    (increment_user_balance st uid delta username now).1
        = max 0 (get_user_balance st uid + delta) ∧
    get_user_balance (increment_user_balance st uid delta username now).2 uid
        = max 0 (get_user_balance st uid + delta) ∧
    0 ≤ get_user_balance (increment_user_balance st uid delta username now).2 uid := by
  by_cases hd : delta = 0
  · subst hd
    have hred : increment_user_balance st uid 0 username now = (get_user_balance st uid, st) := by
      simp [increment_user_balance]
    rw [hred]
    refine ⟨?_, ?_, ?_⟩
    · show get_user_balance st uid = max 0 (get_user_balance st uid + 0)
      omega
    · show get_user_balance st uid = max 0 (get_user_balance st uid + 0)
      omega
    · exact h
  · cases hst : st uid with
    | some row =>
        have hb : get_user_balance st uid = row.paid_generations := by
          simp [get_user_balance, hst]
        simp [increment_user_balance, hd, hst, setRow, get_user_balance, hb]
    | none =>
        have hb : get_user_balance st uid = 0 := by
          simp [get_user_balance, hst]
        simp [increment_user_balance, hd, hst, setRow, get_user_balance, hb]

/-- C3 witness: increment(7, -1000) on the empty table (zero balance)
returns 0. -/
theorem increment_clamps_at_zero_witness :
    (0 : Int) ≤ get_user_balance (fun _ => none) 7 ∧
    (increment_user_balance (fun _ => none) 7 (-1000) none "2026-01-01T00:00:00").1 = 0 := by
  constructor
  · simp [get_user_balance]
  · have h := (increment_clamps_at_zero (fun _ => none) 7 (-1000) none
      "2026-01-01T00:00:00" (by simp [get_user_balance])).1
    rw [h]
    simp [get_user_balance]

/-- C2: the signature base string is the eight canonical field values in
fixed order (missing fields contributing the empty string) joined by '&',
followed by '&' and the secret, where the secret is the configured value
with fallback to the payload's secret field only when none is configured;
the received hash is the first non-empty of sha1_hash, md5,
notification_secret; and both verifier variants accept only when the
digest of the base string matches the received hash case-insensitively. -/
theorem sign_string_spec (hashFn : String → String) (cfgSecret : String) (p : Params) :
    (sign_string cfgSecret p =
      getp p "notification_type" ++ "&" ++ getp p "operation_id" ++ "&" ++
      getp p "amount" ++ "&" ++ getp p "currency" ++ "&" ++ getp p "datetime" ++ "&" ++
      getp p "sender" ++ "&" ++ getp p "codepro" ++ "&" ++ getp p "label" ++ "&" ++
      (if cfgSecret ≠ "" then cfgSecret else getp p "secret")) ∧
    (received_hash p =
      if getp p "sha1_hash" ≠ "" then getp p "sha1_hash"
      else if getp p "md5" ≠ "" then getp p "md5"
      else if getp p "notification_secret" ≠ "" then getp p "notification_secret"
      else "") ∧
    (is_valid_bot hashFn cfgSecret p = true →
      pyLower (received_hash p) = pyLower (hashFn (sign_string cfgSecret p))) ∧
    (is_valid_webhook hashFn cfgSecret p = true →
      pyLower (received_hash p) = pyLower (hashFn (sign_string cfgSecret p))) := by
  refine ⟨?_, ?_, ?_, ?_⟩
  · by_cases hc : cfgSecret = "" <;>
      simp [sign_string, notifSecret, pyOrStr, ordered_keys, pyJoin, hc,
        String.append_assoc]
  · cases h1 : p "sha1_hash" <;> cases h2 : p "md5" <;> cases h3 : p "notification_secret" <;>
      simp [received_hash, orNonEmpty, getp, h1, h2, h3]
  · intro hv
    unfold is_valid_bot at hv
    rw [Bool.and_eq_true] at hv
    exact beq_iff_eq.mp hv.1
  · intro hv
    unfold is_valid_webhook at hv
    rw [Bool.and_eq_true, Bool.and_eq_true] at hv
    exact beq_iff_eq.mp hv.1.1

/-- C2 witness: a concrete accepted notification satisfies the
case-insensitive digest match. -/
theorem sign_string_spec_witness :
    is_valid_bot (fun _ => "aa") "s" (fun k => if k = "sha1_hash" then some "aa" else none)
        = true ∧
    pyLower (received_hash (fun k => if k = "sha1_hash" then some "aa" else none)) =
      pyLower ((fun _ => "aa")
        (sign_string "s" (fun k => if k = "sha1_hash" then some "aa" else none))) := by
  refine ⟨by decide, ?_⟩
  exact (sign_string_spec (fun _ => "aa") "s"
    (fun k => if k = "sha1_hash" then some "aa" else none)).2.2.1 (by decide)

/-- C10: when none of sha1_hash, md5, notification_secret is present with
a non-empty value, the received hash defaults to the empty string, which
can never equal the 40-character hex digest, so both verifier variants
reject regardless of the other fields and of the configured secret. -/
theorem missing_hash_always_rejected (hashFn : String → String) (cfgSecret : String)
    (p : Params) (hlen : ∀ s, (hashFn s).length = 40)
    (h1 : getp p "sha1_hash" = "") (h2 : getp p "md5" = "")
    (h3 : getp p "notification_secret" = "") :
    received_hash p = "" ∧
    is_valid_bot hashFn cfgSecret p = false ∧
    is_valid_webhook hashFn cfgSecret p = false := by
  have e1 : ∀ x, orNonEmpty (p "sha1_hash") x = x := by
    intro x
    cases hp : p "sha1_hash" with
    | none => rfl
    | some s =>
        simp [getp, hp] at h1
        simp [orNonEmpty, h1]
  have e2 : ∀ x, orNonEmpty (p "md5") x = x := by
    intro x
    cases hp : p "md5" with
    | none => rfl
    | some s =>
        simp [getp, hp] at h2
        simp [orNonEmpty, h2]
  have e3 : ∀ x, orNonEmpty (p "notification_secret") x = x := by
    intro x
    cases hp : p "notification_secret" with
    | none => rfl
    | some s =>
        simp [getp, hp] at h3
        simp [orNonEmpty, h3]
  have hrec : received_hash p = "" := by
    unfold received_hash
    rw [e1, e2, e3]
  have hne : pyLower (received_hash p) ≠ pyLower (hashFn (sign_string cfgSecret p)) := by
    rw [hrec]
    intro heq
    have hlens : (pyLower "").length = (pyLower (hashFn (sign_string cfgSecret p))).length := by
      rw [heq]
    have l1 : (pyLower "").length = 0 := rfl
    have l2 : (pyLower (hashFn (sign_string cfgSecret p))).length = 40 := by
      show ((hashFn (sign_string cfgSecret p)).data.map Char.toLower).length = 40
      rw [List.length_map]
      exact hlen _
    omega
  have hbeq : (pyLower (received_hash p) ==
      pyLower (hashFn (sign_string cfgSecret p))) = false := by
    cases hb : (pyLower (received_hash p) ==
        pyLower (hashFn (sign_string cfgSecret p))) with
    | false => rfl
    | true => exact absurd (beq_iff_eq.mp hb) hne
  exact ⟨hrec, by simp [is_valid_bot, hbeq], by simp [is_valid_webhook, hbeq]⟩

/-- C10 witness: a notification with no hash field at all is rejected by
both variants, for a digest function producing 40-character output. -/
theorem missing_hash_always_rejected_witness :
    is_valid_bot (fun _ => "0123456789abcdef0123456789abcdef01234567") "cfg"
      (fun _ => none) = false ∧
    is_valid_webhook (fun _ => "0123456789abcdef0123456789abcdef01234567") "cfg"
      (fun _ => none) = false :=
  (missing_hash_always_rejected (fun _ => "0123456789abcdef0123456789abcdef01234567")
    "cfg" (fun _ => none) (fun _ => rfl) (by decide) (by decide) (by decide)).2

/-- C1 amended: the chat verifier accepts iff the digest matches the
received hash case-insensitively and the codepro field — defaulting to
"false" when absent — equals "false" case-insensitively; the webhook
variant additionally requires currency == "643"; and whenever
verification fails, the ledger is unchanged. -/
theorem verifier_accepts_iff (U : PyDigits) (hashFn : String → String)
    (cfgSecret now : String) (p : Params) (st : LedgerState) :
    (is_valid_bot hashFn cfgSecret p = true ↔
      (pyLower (received_hash p) = pyLower (hashFn (sign_string cfgSecret p)) ∧
       pyLower ((p "codepro").getD "false") = "false")) ∧
    (is_valid_webhook hashFn cfgSecret p = true ↔
      (pyLower (received_hash p) = pyLower (hashFn (sign_string cfgSecret p)) ∧
       pyLower ((p "codepro").getD "false") = "false" ∧
       p "currency" = some "643")) ∧
    (is_valid_bot hashFn cfgSecret p = false →
      on_yoomoney_notification U hashFn cfgSecret now p st = (st, NotifOutcome.invalid)) ∧
    (is_valid_webhook hashFn cfgSecret p = false →
      yoomoney_webhook U hashFn cfgSecret now p st = (st, NotifOutcome.invalid)) := by
  refine ⟨?_, ?_, ?_, ?_⟩
  · simp [is_valid_bot]
  · simp [is_valid_webhook, and_assoc]
  · intro hv
    simp [on_yoomoney_notification, hv]
  · intro hv
    simp [yoomoney_webhook, hv]

/-- C1 witness: on an unverifiable notification the chat handler leaves
the ledger unchanged and reports an invalid signature. -/
theorem verifier_accepts_iff_witness :
    on_yoomoney_notification asciiDigits (fun _ => "zz") "" "t" (fun _ => none)
      (fun _ => none) = ((fun _ => none : LedgerState), NotifOutcome.invalid) :=
  (verifier_accepts_iff asciiDigits (fun _ => "zz") "" "t" (fun _ => none)
    (fun _ => none)).2.2.1 (by decide)

/-- C1 counterexample: a notification whose codepro field is "FALSE" —
not equal to the string "false" — and whose digest matches is accepted by
both verifier variants, refuting the claim that acceptance requires the
codepro field to equal "false". -/
theorem codepro_case_counterexample :
    is_valid_bot (fun _ => sha1Sample) ""
      (fun k => if k = "codepro" then some "FALSE"
        else if k = "sha1_hash" then some sha1Sample
        else if k = "currency" then some "643" else none) = true ∧
    is_valid_webhook (fun _ => sha1Sample) ""
      (fun k => if k = "codepro" then some "FALSE"
        else if k = "sha1_hash" then some sha1Sample
        else if k = "currency" then some "643" else none) = true ∧
    (fun k => if k = "codepro" then some "FALSE"
        else if k = "sha1_hash" then some sha1Sample
        else if k = "currency" then some "643" else none) "codepro" = some "FALSE" ∧
    ("FALSE" : String) ≠ "false" := by
  refine ⟨by decide, by decide, by decide, by decide⟩

/-- C4: for every digit table (Python's Unicode one included) and every
label, the target user id is resolved by trying, in order, the whole
label as digits, then the user_id:<digits> form, then the digit
characters stripped from the label; a label with no digit characters at
all resolves to unresolved in both handler variants, and an unresolved
label leaves the ledger of either handler unchanged. -/
theorem label_resolution_order (U : PyDigits) (label : List Char) :
    (∀ n, pyIsDigit U label = true → pyInt U label = some n →
      extract_user_id U label = ExtractResult.resolved n ∧
      extract_user_id_webhook U label = ExtractResult.resolved n) ∧
    (∀ n, pyIsDigit U label = false →
      ("user_id:".data.isPrefixOf label && pyIsDigit U (label.drop 8)) = true →
      pyInt U (label.drop 8) = some n →
      extract_user_id U label = ExtractResult.resolved n ∧
      extract_user_id_webhook U label = ExtractResult.resolved n) ∧
    (∀ n, pyIsDigit U label = false →
      ("user_id:".data.isPrefixOf label && pyIsDigit U (label.drop 8)) = false →
      label.filter U.isdig ≠ [] →
      pyInt U (label.filter U.isdig) = some n →
      extract_user_id U label = ExtractResult.resolved n ∧
      extract_user_id_webhook U label = ExtractResult.resolved n) ∧
    ((∀ c ∈ label, U.isdig c = false) →
      extract_user_id U label = ExtractResult.unresolved ∧
      extract_user_id_webhook U label = ExtractResult.unresolved) ∧
    (∀ (hashFn : String → String) (cfgSecret now : String) (p : Params)
      (st : LedgerState),
      extract_user_id U (getp p "label").data = ExtractResult.unresolved →
      extract_user_id_webhook U (getp p "label").data = ExtractResult.unresolved →
      (on_yoomoney_notification U hashFn cfgSecret now p st).1 = st ∧
      (yoomoney_webhook U hashFn cfgSecret now p st).1 = st) := by
  refine ⟨?_, ?_, ?_, ?_, ?_⟩
  · intro n h1 hn
    constructor <;> simp [extract_user_id, extract_user_id_webhook, h1, hn]
  · intro n h1 h2 hn
    constructor <;> simp [extract_user_id, extract_user_id_webhook, h1, h2, hn]
  · intro n h1 h2 h3 hn
    constructor <;> simp [extract_user_id, extract_user_id_webhook, h1, h2, h3, hn]
  · intro h
    have h1 : pyIsDigit U label = false := by
      cases label with
      | nil => rfl
      | cons c cs => simp [pyIsDigit, h c (List.mem_cons_self c cs)]
    have h2 : pyIsDigit U (label.drop 8) = false := by
      cases hd : label.drop 8 with
      | nil => rfl
      | cons c cs =>
          have hc : c ∈ label :=
            List.drop_subset 8 label (hd ▸ List.mem_cons_self c cs)
          simp [pyIsDigit, h c hc]
    have h3 : label.filter U.isdig = [] := by
      rw [List.filter_eq_nil_iff]
      intro a ha
      simp [h a ha]
    constructor <;> simp [extract_user_id, extract_user_id_webhook, h1, h2, h3]
  · intro hashFn cfgSecret now p st hnone hnonew
    constructor
    · by_cases hv : is_valid_bot hashFn cfgSecret p = true
      · simp [on_yoomoney_notification, hv, hnone]
      · simp [on_yoomoney_notification, hv]
    · by_cases hv : is_valid_webhook hashFn cfgSecret p = true
      · simp [yoomoney_webhook, hv, hnonew]
      · simp [yoomoney_webhook, hv]

/-- C4 witness: under the ASCII rows of the digit table, the digit-free
label "abc" resolves to unresolved and the chat handler leaves the empty
ledger unchanged on a notification carrying it. -/
theorem label_resolution_order_witness :
    extract_user_id asciiDigits ("abc".data) = ExtractResult.unresolved ∧
    (on_yoomoney_notification asciiDigits (fun _ => "h") "" "t"
      (fun k => if k = "label" then some "abc" else none) (fun _ => none)).1 =
      (fun _ => none : LedgerState) := by
  constructor
  · exact ((label_resolution_order asciiDigits "abc".data).2.2.2.1 (by decide)).1
  · exact ((label_resolution_order asciiDigits "abc".data).2.2.2.2 (fun _ => "h") "" "t"
      (fun k => if k = "label" then some "abc" else none) (fun _ => none)
      (by decide) (by decide)).1

/-- Helper for C5: a permanently processing task always drives the poll
loop to the timeout branch, for any interval at least the initial 5s and
enough fuel measured against the 20-minute deadline. -/
theorem kling_poll_loop_times_out (poll : Nat → PollStatus)
    (hp : ∀ t, poll t = PollStatus.processing) :
    ∀ (fuel elapsed interval : Nat), 5 ≤ interval → 1200 < elapsed + 5 * fuel →
    kling_poll_loop poll (fuel + 1) elapsed interval = some KlingOutcome.timedOut := by
  intro fuel
  induction fuel with
  | zero =>
      intro elapsed interval h5 hbound
      unfold kling_poll_loop
      rw [if_pos (by omega)]
  | succ n ih =>
      intro elapsed interval h5 hbound
      unfold kling_poll_loop
      by_cases he : 1200 < elapsed
      · rw [if_pos he]
      · rw [if_neg he, hp elapsed]
        show kling_poll_loop poll (n + 1) (elapsed + interval) (updateInterval interval)
          = some KlingOutcome.timedOut
        have h5' : 5 ≤ updateInterval interval := by
          unfold updateInterval
          split <;> omega
        exact ih (elapsed + interval) (updateInterval interval) h5' (by omega)

/-- C5: a job whose polled status stays processing past the 20-minute
deadline makes the generation call end in the TimedOut outcome — never in
the Failed outcome — and the outer scheduler then surfaces the timeout
message rather than a failure. -/
theorem processing_past_deadline_times_out (poll : Nat → PollStatus) (fuel : Nat)
    (hp : ∀ t, poll t = PollStatus.processing) (hf : 242 ≤ fuel) :
    kling_generate_video poll fuel = some KlingOutcome.timedOut ∧
    (∀ r, kling_generate_video poll fuel ≠ some (KlingOutcome.generationFailed r)) ∧
    (∀ fuel2, poll_and_send (fun _ => AttemptResult.timeoutErr) (fuel2 + 1) 0 0 30 =
      [OutEvent.sleep 30, OutEvent.timeoutMsg]) := by
  obtain ⟨k, rfl⟩ : ∃ k, fuel = k + 1 := ⟨fuel - 1, by omega⟩
  have h : kling_generate_video poll (k + 1) = some KlingOutcome.timedOut :=
    kling_poll_loop_times_out poll hp k 0 5 (by omega) (by omega)
  refine ⟨h, ?_, ?_⟩
  · intro r
    rw [h]
    simp
  · intro fuel2
    rfl

/-- C5 witness: with 242 poll iterations of fuel and every status request
answering processing, the generation call times out. -/
theorem processing_past_deadline_times_out_witness :
    kling_generate_video (fun _ => PollStatus.processing) 242 = some KlingOutcome.timedOut :=
  (processing_past_deadline_times_out (fun _ => PollStatus.processing) 242
    (fun _ => rfl) (by omega)).1

/-- Helper for C7: starting from a notification count n below the cap, a
scheduler run emits at most 20 - n further notifications. -/
theorem notifyTiers_length_le (attempt : Nat → AttemptResult) :
    ∀ (fuel i n d : Nat), n < 20 →
    (notifyTiers (poll_and_send attempt fuel i n d)).length ≤ 20 - n := by
  intro fuel
  induction fuel with
  | zero =>
      intro i n d hn
      simp [poll_and_send, notifyTiers]
  | succ f ih =>
      intro i n d hn
      unfold poll_and_send
      cases att : attempt i with
      | success url => simp [notifyTiers]
      | timeoutErr => simp [notifyTiers]
      | transientErr m =>
          by_cases h20 : 20 ≤ n + 1
          · rw [if_pos h20]
            show (notifyTiers (OutEvent.sleep d :: OutEvent.notify d ::
              [OutEvent.timeoutMsg])).length ≤ 20 - n
            simp [notifyTiers]
            omega
          · rw [if_neg h20]
            show (notifyTiers (OutEvent.sleep d :: OutEvent.notify d ::
              poll_and_send attempt f (i + 1) (n + 1) (updateDelay d))).length ≤ 20 - n
            have hrec := ih (i + 1) (n + 1) (updateDelay d) (by omega)
            simp [notifyTiers]
            omega

/-- C7 amended: the first poll is preceded by a 30-second delay; the wait
interval ramps 30 → 60 → 75 → 90 and stays at the 90-second ceiling; at
most 20 "still waiting" notifications are emitted in total, one per
pending attempt — not one per distinct delay tier, since every attempt at
the 90-second ceiling notifies again, as the explicit all-pending trace
shows. -/
theorem poll_schedule (attempt : Nat → AttemptResult) :
    (∀ fuel i n, (poll_and_send attempt (fuel + 1) i n 30).head? =
      some (OutEvent.sleep 30)) ∧
    (updateDelay 30 = 60 ∧ updateDelay 60 = 75 ∧ updateDelay 75 = 90 ∧
      updateDelay 90 = 90) ∧
    (∀ fuel i n d, n < 20 →
      (notifyTiers (poll_and_send attempt fuel i n d)).length ≤ 20 - n) ∧
    (poll_and_send (fun _ => AttemptResult.transientErr "err") 25 0 0 30 =
      [OutEvent.sleep 30, OutEvent.notify 30, OutEvent.sleep 60, OutEvent.notify 60,
       OutEvent.sleep 75, OutEvent.notify 75] ++
      (List.replicate 17 [OutEvent.sleep 90, OutEvent.notify 90]).flatten ++
      [OutEvent.timeoutMsg]) := by
  refine ⟨fun fuel i n => rfl, ⟨rfl, rfl, rfl, rfl⟩, ?_, by decide⟩
  intro fuel i n d hn
  exact notifyTiers_length_le attempt fuel i n d hn

/-- C7 witness: an immediately succeeding job stays within the
20-notification cap. -/
theorem poll_schedule_witness :
    (notifyTiers (poll_and_send (fun _ => AttemptResult.success "u") 3 0 0 30)).length
      ≤ 20 - 0 :=
  (poll_schedule (fun _ => AttemptResult.success "u")).2.2.1 3 0 0 30 (by omega)

/-- C7 counterexample: in the all-pending run the 90-second delay tier
receives far more than one "still waiting" notification, refuting the
claim of at most one notification per distinct delay tier. -/
theorem notify_per_tier_counterexample :
    2 ≤ (notifyTiers (poll_and_send (fun _ => AttemptResult.transientErr "err")
      25 0 0 30)).count 90 := by
  decide

/-- Helper for C8: the default of getLastD on a nonempty list is a member. -/
theorem getLastD_mem {α : Type} (l : List α) (d : α) (h : l ≠ []) : l.getLastD d ∈ l := by
  cases l with
  | nil => exact absurd rfl h
  | cons a as =>
      simpa [List.getLastD] using List.getLast_mem (l := a :: as) (by simp)

/-- Helper for C8: every event yields at least one session value. -/
theorem step_states_ne_nil (s : Session) (e : BotEvent) : step_states s e ≠ [] := by
  cases e with
  | imageMsg data dir =>
      simp only [step_states, on_image_states]
      split <;> split <;> simp
  | cmdStart => simp [step_states]
  | cmdCancel => simp [step_states]
  | flowStartText => simp [step_states]
  | nonImageMsg => simp [step_states]
  | imageIntakeError => simp [step_states]

/-- Helper for C8: each step preserves the image invariant on every
intermediate session value, including the one holding both images just
before the completion reset. -/
theorem step_states_preserves_inv (s : Session) (e : BotEvent) (hs : ImageInv s) :
    ∀ s' ∈ step_states s e, ImageInv s' := by
  cases e with
  | cmdStart => simp [step_states, ImageInv, emptySession]
  | cmdCancel => simp [step_states, ImageInv, emptySession]
  | flowStartText => simp [step_states, ImageInv, emptySession]
  | nonImageMsg => simpa [step_states] using hs
  | imageIntakeError => simp [step_states, ImageInv, emptySession]
  | imageMsg data dir =>
      intro s' hs'
      simp only [step_states, on_image_states] at hs'
      set s1 := if s.workdir.isNone then { s with workdir := some dir } else s with hs1
      have hinv1 : ImageInv s1 := by
        rw [hs1]
        split <;> simpa [ImageInv] using hs
      by_cases hstart : s1.start_b64.isNone
      · rw [if_pos hstart] at hs'
        simp at hs'
        subst hs'
        intro hend
        exact absurd (hinv1 hend) (by simpa using hstart)
      · rw [if_neg hstart] at hs'
        simp at hs'
        cases hs' with
        | inl h =>
            subst h
            intro _
            cases hc : s1.start_b64 with
            | none => exact absurd (by simp [hc]) hstart
            | some v => simp [hc]
        | inr h =>
            subst h
            intro h'
            simp [emptySession] at h'


/-- Helper for C8: the invariant holds at every session value reached
while processing any event list from an invariant-satisfying start. -/
theorem run_states_preserves_inv (evs : List BotEvent) :
    ∀ (s : Session), ImageInv s → ∀ s' ∈ run_states s evs, ImageInv s' := by
  induction evs with
  | nil =>
      intro s _ s' hs'
      simp [run_states] at hs'
  | cons e evs ih =>
      intro s hs s' hs'
      simp only [run_states, List.mem_append] at hs'
      cases hs' with
      | inl h => exact step_states_preserves_inv s e hs s' h
      | inr h =>
          have hlast : ImageInv ((step_states s e).getLastD s) :=
            step_states_preserves_inv s e hs _
              (getLastD_mem _ s (step_states_ne_nil s e))
          exact ih ((step_states s e).getLastD s) hlast s' h

/-- C8: in every session state reachable from the fresh empty session —
including the intermediate states inside the image-intake flow — a second
image is only present when a first image is, since the second image is
stored only when the first is already set and every reset site installs a
fresh empty session. -/
theorem session_second_image_needs_first (evs : List BotEvent) (s' : Session)
    (h : s' ∈ run_states emptySession evs) : ImageInv s' :=
  run_states_preserves_inv evs emptySession (by intro h'; simp [emptySession] at h') s' h

/-- C8 witness: the state holding both images, reached after two image
messages, satisfies the invariant. -/
theorem session_second_image_needs_first_witness :
    ImageInv ⟨some "a", some "b", some "w"⟩ :=
  session_second_image_needs_first
    [BotEvent.imageMsg "a" "w", BotEvent.imageMsg "b" "w"]
    ⟨some "a", some "b", some "w"⟩ (by decide)

/-- C6 amended: on an accepted notification, changing any single
character of the received signature field to one that differs even after
lowercasing (i.e. anything but a case flip of the same letter) makes both
verifier variants reject. -/
theorem signature_flip_rejected (hashFn : String → String) (cfgSecret : String)
    (p : Params) (r : String) (i : Nat) (c : Char)
    (hr : (p "sha1_hash").getD "" = r) (hne : r ≠ "")
    (hvalid : is_valid_bot hashFn cfgSecret p = true)
    (hi : i < r.data.length)
    (hc : Char.toLower c ≠ Char.toLower (r.data.get ⟨i, hi⟩)) :
    is_valid_bot hashFn cfgSecret
      (fun k => if k = "sha1_hash" then some (String.mk (r.data.set i c)) else p k)
        = false ∧
    is_valid_webhook hashFn cfgSecret
      (fun k => if k = "sha1_hash" then some (String.mk (r.data.set i c)) else p k)
        = false := by
  set p' := (fun k => if k = "sha1_hash" then some (String.mk (r.data.set i c)) else p k :
    Params) with hp'
  have hrecv : received_hash p = r := by
    unfold received_hash
    cases hp : p "sha1_hash" with
    | none =>
        rw [hp] at hr
        simp at hr
        exact absurd hr.symm hne
    | some s =>
        rw [hp] at hr
        simp at hr
        subst hr
        simp [orNonEmpty, hne]
  have hne' : String.mk (r.data.set i c) ≠ "" := by
    intro h0
    have hdata : r.data.set i c = ("" : String).data := congrArg String.data h0
    have hzero : (r.data.set i c).length = 0 := by
      rw [hdata]
      rfl
    rw [List.length_set] at hzero
    omega
  have happ : p' "sha1_hash" = some (String.mk (r.data.set i c)) := by
    rw [hp']
    simp
  have hothers : ∀ k, k ≠ "sha1_hash" → p' k = p k := by
    intro k hk
    rw [hp']
    simp [hk]
  have hrecv' : received_hash p' = String.mk (r.data.set i c) := by
    unfold received_hash
    rw [happ]
    simp [orNonEmpty, hne']
  have hsign : sign_string cfgSecret p' = sign_string cfgSecret p := by
    simp only [sign_string, notifSecret, getp, ordered_keys, List.map_cons, List.map_nil]
    rw [hothers "notification_type" (by decide), hothers "operation_id" (by decide),
      hothers "amount" (by decide), hothers "currency" (by decide),
      hothers "datetime" (by decide), hothers "sender" (by decide),
      hothers "codepro" (by decide), hothers "label" (by decide),
      hothers "secret" (by decide)]
  have hveq : pyLower r = pyLower (hashFn (sign_string cfgSecret p)) := by
    unfold is_valid_bot at hvalid
    rw [Bool.and_eq_true] at hvalid
    have h := beq_iff_eq.mp hvalid.1
    rwa [hrecv] at h
  have hkey : pyLower (String.mk (r.data.set i c)) ≠
      pyLower (hashFn (sign_string cfgSecret p)) := by
    rw [← hveq]
    intro heq
    have hd : (r.data.set i c).map Char.toLower = r.data.map Char.toLower := by
      have h := congrArg String.data heq
      simpa [pyLower] using h
    rw [List.map_set] at hd
    have hi1 : i < ((r.data.map Char.toLower).set i (Char.toLower c)).length := by
      simpa using hi
    have hi2 : i < (r.data.map Char.toLower).length := by simpa using hi
    have h1 : ((r.data.map Char.toLower).set i (Char.toLower c))[i] =
        Char.toLower c := List.getElem_set_self (by simpa using hi)
    have h3 : ((r.data.map Char.toLower).set i (Char.toLower c))[i] =
        (r.data.map Char.toLower)[i] := by simp [hd]
    have h2 : (r.data.map Char.toLower)[i] =
        Char.toLower (r.data.get ⟨i, hi⟩) := by
      rw [List.getElem_map]
      rfl
    exact hc (by rw [← h1, h3, h2])
  have hbeq' : (pyLower (received_hash p') ==
      pyLower (hashFn (sign_string cfgSecret p'))) = false := by
    rw [hrecv', hsign]
    cases hb : (pyLower (String.mk (r.data.set i c)) ==
        pyLower (hashFn (sign_string cfgSecret p))) with
    | false => rfl
    | true => exact absurd (beq_iff_eq.mp hb) hkey
  constructor
  · unfold is_valid_bot
    rw [hbeq', Bool.false_and]
  · unfold is_valid_webhook
    simp [hbeq']

/-- C6 witness: changing the first character of an accepted two-character
signature to an unrelated letter makes verification reject. -/
theorem signature_flip_rejected_witness :
    is_valid_bot (fun _ => "ab") ""
      (fun k => if k = "sha1_hash" then some (String.mk (("ab" : String).data.set 0 'x'))
        else if k = "sha1_hash" then some "ab" else none) = false :=
  (signature_flip_rejected (fun _ => "ab") ""
    (fun k => if k = "sha1_hash" then some "ab" else none)
    "ab" 0 'x' (by decide) (by decide) (by decide) (by decide) (by decide)).1

/-- C6 counterexample: the claim as stated is false — changing the final
character of the accepted sample signature from lowercase to uppercase is
a single-character change, yet the notification is still accepted,
because the comparison lowercases both sides. -/
theorem signature_case_flip_counterexample :
    is_valid_bot (fun _ => sha1Sample) ""
      (fun k => if k = "sha1_hash" then some sha1Sample else none) = true ∧
    sha1Sample.data.length = sha1SampleUp.data.length ∧
    diffCount sha1Sample.data sha1SampleUp.data = 1 ∧
    sha1Sample ≠ sha1SampleUp ∧
    is_valid_bot (fun _ => sha1Sample) ""
      (fun k => if k = "sha1_hash" then some sha1SampleUp else none) = true := by
  refine ⟨by decide, by decide, by decide, by decide, by decide⟩

end KlingAi
